import Mathlib

/-!
Shallow embedding of the WDK + Candide social-recovery example scripts.

Each script is a linear, operator-supervised driver around three SDKs.  We
model every script `main` as a pure function from a `...World` record (the
oracle answers for the remote calls and prompts that influence control flow)
to a trace of externally visible events plus a final outcome.  Console
output, section headers and prompt wording are not modelled; oracle fields
that only feed `console.log` are kept where they help readability and noted
as log-only.

Script sources:
  * `recovery/email-sms/02-recovery-flow-email-sms` (src/unnamed/part_000)
  * `recovery/email-sms/01-enable-email-sms-recovery` (src/unnamed/part_001)
  * `recovery/personal-guardian/01-add-personal-guardian` (first main of
    src/recovery/personal-guardian/01-add-personal-guardian/index.ts)
  * `recovery/personal-guardian/02-recovery-flow-personal-guardian` (second
    main of the same file)
  * `recovery/shared/setup-alerts` and `recovery/shared/cancel-recovery`
  * the standalone `send-userop-sponsored` example (src/unnamed/part_002)
-/

/-! ## JavaScript builtin models -/

/-- Modelled builtin: `process.env` as an association list; `envGet env k`
is `process.env[k]` (`none` = the variable is not set). -/
def envGet (env : List (String × String)) (k : String) : Option String :=
  (env.find? (fun p => p.1 == k)).map Prod.snd

/-- Modelled builtin: JavaScript truthiness of `process.env[v]` as used in
`requiredEnvVars.filter(v => !process.env[v])`: an unset variable and an
empty-string variable are both falsy. -/
def isFalsyEnv (env : List (String × String)) (k : String) : Bool :=
  match envGet env k with
  | none => true
  | some s => s == ""

/-- Embeds `requiredEnvVars.filter(v => !process.env[v])`, the list of
missing (unset or empty) required environment variables, in order. -/
def missingVars (env : List (String × String)) (req : List String) : List String :=
  req.filter (fun v => isFalsyEnv env v)

/-- Modelled builtin: JavaScript `Array.prototype.join(sep)`. -/
def joinSep (sep : String) : List String → String
  | [] => ""
  | [s] => s
  | s :: rest => s ++ sep ++ joinSep sep rest

/-- Embeds the `missing.join` call with a comma separator, as used in every
configuration error message. -/
def joinComma (l : List String) : String := joinSep ", " l

/-- Modelled builtin: JavaScript truthiness of an optional string field
(`!x` is true for `undefined`/`null` and for the empty string). -/
def jsFalsyStr : Option String → Bool
  | none => true
  | some s => s == ""

/-- Modelled builtin: the whitespace characters trimmed by `parseInt`
(the common ASCII subset plus no-break space). -/
def isJsSpace (c : Char) : Bool :=
  c = ' ' || c = '\t' || c = '\n' || c = '\r' || c = '\u000B' || c = '\u000C' || c = ' '

/-- Hexadecimal digit test, for the `0x` branch of `parseInt`. -/
def isHexDigitChar (c : Char) : Bool :=
  c.isDigit || ('a' ≤ c && c ≤ 'f') || ('A' ≤ c && c ≤ 'F')

/-- Value of a (decimal or hexadecimal) digit character. -/
def hexDigitVal (c : Char) : Nat :=
  if c.isDigit then c.toNat - 48
  else if 'a' ≤ c && c ≤ 'f' then c.toNat - 97 + 10
  else c.toNat - 65 + 10

/-- Modelled builtin: JavaScript `parseInt(string)` with the radix argument
omitted: leading whitespace is skipped, an optional sign is read, a `0x`/`0X`
prefix selects base 16 (otherwise base 10), the longest prefix of valid
digits is converted and trailing characters are ignored; if no digit is
found the result is `NaN`, modelled as `none`. -/
def parseIntJS (s : String) : Option Int :=
  let cs := s.toList.dropWhile isJsSpace
  let signed : Int × List Char :=
    match cs with
    | '-' :: rest => (-1, rest)
    | '+' :: rest => (1, rest)
    | _ => (1, cs)
  let hexed : Bool × List Char :=
    match signed.2 with
    | '0' :: 'x' :: rest => (true, rest)
    | '0' :: 'X' :: rest => (true, rest)
    | _ => (false, signed.2)
  let ds := hexed.2.takeWhile (fun c => if hexed.1 then isHexDigitChar c else c.isDigit)
  if ds.isEmpty then none
  else
    some (signed.1 *
      Int.ofNat (ds.foldl (fun acc c => acc * (if hexed.1 then 16 else 10) + hexDigitVal c) 0))

/-- Modelled builtin: JavaScript `<` on a possibly-NaN number (`none` = NaN;
every comparison with NaN is false). -/
def jsNumLt (a : Option Int) (b : Int) : Bool :=
  match a with
  | none => false
  | some x => decide (x < b)

/-- Modelled builtin: JavaScript `>` on a possibly-NaN number. -/
def jsNumGt (a : Option Int) (b : Int) : Bool :=
  match a with
  | none => false
  | some x => decide (b < x)

/-- Modelled builtin: JavaScript `String.prototype.toLowerCase()` on the
ASCII alphabet, as applied to hex account addresses. -/
def jsToLower (s : String) : String :=
  String.mk (s.data.map Char.toLower)

/-- Substring test used to state facts about error messages: does `l`
start with `s`? -/
def startsWithList : List Char → List Char → Bool
  | _, [] => true
  | [], _ :: _ => false
  | a :: l, b :: s => a == b && startsWithList l s

/-- Substring test used to state facts about error messages: does `l`
contain `s` as a contiguous substring? -/
def hasSub : List Char → List Char → Bool
  | [], s => s.isEmpty
  | a :: l, s => startsWithList (a :: l) s || hasSub l s

/-! ## Shared data model -/

/-- The `SocialRecoveryModuleGracePeriodSelector` values of abstractionkit
used by the scripts; each selector addresses a distinct deployed Social
Recovery Module contract instance. -/
inductive GracePeriodSelector
  | After3Minutes
  | After3Days
  | After7Days
  | After14Days
  deriving DecidableEq, Repr

/-- Grace-period duration of each selector in milliseconds, per the
grace-period table in the repository README (src/unnamed/part_002):
`After3Minutes` is 3 minutes, `After3Days` 3 days, and so on. -/
def gracePeriodMs : GracePeriodSelector → Nat
  | .After3Minutes => 3 * 60 * 1000
  | .After3Days => 3 * 24 * 60 * 60 * 1000
  | .After7Days => 7 * 24 * 60 * 60 * 1000
  | .After14Days => 14 * 24 * 60 * 60 * 1000

/-- The meta-transactions built by `SocialRecoveryModule` that the scripts
submit: `createEnableModuleMetaTransaction(safeAddress)`,
`createAddGuardianWithThresholdMetaTransaction(guardian, threshold)` and the
argument-less `createCancelRecoveryMetaTransaction()`. -/
inductive MetaTx
  | enableModule (safeAddress : String)
  | addGuardianWithThreshold (guardian : String) (threshold : Nat)
  | cancelRecovery
  deriving DecidableEq, Repr

/-- One entry of `signatureRequest.auths`: a registered recovery channel to
verify (channel kind, target address/number, challenge id). -/
structure Auth where
  channel : String
  target : String
  challengeId : String
  deriving DecidableEq, Repr

/-- Result of `submitCustodialGuardianSignatureChallenge`: whether the OTP
was accepted, and (on the last accepted submission) the custodial guardian
address and signature. -/
structure VerificationResult where
  success : Bool
  custodianGuardianAddress : Option String
  custodianGuardianSignature : Option String
  deriving DecidableEq, Repr

/-- On-chain recovery request as returned by `srm.getRecoveryRequest`:
`executeAfter` is 0 exactly when no recovery is pending. -/
structure OnChainRecoveryRequest where
  executeAfter : Nat
  newOwners : List String
  newThreshold : Nat
  deriving DecidableEq, Repr

/-- Outcome of the channel-selection prompt shared verbatim by the
setup-alerts and enable-email-sms scripts: `choice = parseInt(input)`;
inputs with `choice < 1 || choice > 3` are rejected as invalid (NaN
compares false on both sides, so a non-numeric input passes the guard);
then `enableEmail = choice === 1 || choice === 3` and
`enableSms = choice === 2 || choice === 3`. -/
structure ChannelSelection where
  invalid : Bool
  enableEmail : Bool
  enableSms : Bool
  deriving DecidableEq, Repr

/-- Embeds the channel-selection logic of setup-alerts (lines 157-166) and
enable-email-sms-recovery (lines 224-233), which are textually identical. -/
def selectChannels (input : String) : ChannelSelection :=
  let choice := parseIntJS input
  if jsNumLt choice 1 || jsNumGt choice 3 then
    { invalid := true, enableEmail := false, enableSms := false }
  else
    { invalid := false
      enableEmail := choice == some 1 || choice == some 3
      enableSms := choice == some 2 || choice == some 3 }

/-! ## Grace-period selectors passed at each construction site

Every `SocialRecoveryModule` / `RecoveryByGuardian` construction in the
repository passes an explicit grace-period selector.  One entry per site. -/

/-- All grace-period selectors passed at `SocialRecoveryModule` or
`RecoveryByGuardian` construction sites across the repository, labelled by
script and constructor. -/
def selectorSites : List (String × GracePeriodSelector) :=
  [("cancel-recovery SocialRecoveryModule", .After3Minutes),
   ("add-personal-guardian SocialRecoveryModule", .After3Minutes),
   ("recovery-flow-personal-guardian SocialRecoveryModule", .After3Minutes),
   ("recovery-flow-personal-guardian RecoveryByGuardian", .After3Minutes),
   ("enable-email-sms-recovery SocialRecoveryModule", .After3Minutes),
   ("recovery-flow-email-sms RecoveryByGuardian", .After3Minutes)]

/-! ## Script: recovery-flow-email-sms (custodial / OTP flow) -/

/-- Required environment variables of the OTP recovery-flow script. -/
def otpRequiredEnvVars : List String := ["CHAIN_ID", "RECOVERY_SERVICE_URL", "NODE_URL"]

/-- The fixed grace-period wait of the OTP recovery flow:
`await new Promise((resolve) => setTimeout(resolve, 4 * 60 * 1000))`. -/
def otpGraceWaitMs : Nat := 4 * 60 * 1000

/-- Externally visible events of the OTP recovery flow. -/
inductive OtpEvent
  | requestChallenge
  | submitChallenge (idx : Nat)
  | createAndExecute
  | sleep (ms : Nat)
  | finalize
  | getOwners
  deriving DecidableEq, Repr

/-- Final outcome of the OTP recovery flow. -/
inductive OtpOutcome
  | threw (msg : String)
  | verificationFailed
  | noGuardianSignature
  | finalizationFailed
  | completed
  deriving DecidableEq, Repr

/-- Oracle for one run of the OTP recovery flow: environment, the channels
returned by the signature challenge, the verification result of the i-th
OTP submission, and the truthiness of `finalizeRecoveryRequest`. -/
structure OtpWorld where
  env : List (String × String)
  auths : List Auth
  submitRes : Nat → VerificationResult
  finalizeResult : Bool

/-- Result of the per-channel verification loop: either it stopped at the
first failing channel, or it finished and `verificationResult` holds the
last submission result (`none` when there was no channel at all). -/
inductive VerifyOutcome
  | failed (idx : Nat)
  | finished (last : Option VerificationResult)
  deriving DecidableEq, Repr

/-- Embeds the `for (const auth of signatureRequest.auths)` loop of the OTP
flow (lines 159-176 of part_000): each channel gets one OTP submission; on
the first rejected submission the whole loop (and flow) stops; otherwise the
mutable `verificationResult` ends as the last submission result. -/
def verifyChannels (f : Nat → VerificationResult) :
    List Auth → Nat → List OtpEvent × VerifyOutcome
  | [], _ => ([], .finished none)
  | _ :: rest, i =>
    if (f i).success then
      (OtpEvent.submitChallenge i :: (verifyChannels f rest (i + 1)).1,
        match (verifyChannels f rest (i + 1)).2 with
        | .finished none => .finished (some (f i))
        | r => r)
    else ([OtpEvent.submitChallenge i], .failed i)

/-- Embeds `main` of the OTP recovery flow (part_000): env check, signature
challenge request, per-channel OTP verification, guardian-signature guard,
`createAndExecuteRecoveryRequest`, fixed 4-minute grace wait, finalize
(stop on a falsy result), 30-second settle wait, on-chain owner check. -/
def otpFlowRun (w : OtpWorld) : List OtpEvent × OtpOutcome :=
  let missing := missingVars w.env otpRequiredEnvVars
  if missing.length > 0 then
    ([], .threw ("Missing required env vars: " ++ joinComma missing))
  else
    let vc := verifyChannels w.submitRes w.auths 0
    let evs := OtpEvent.requestChallenge :: vc.1
    match vc.2 with
    | .failed _ => (evs, .verificationFailed)
    | .finished none => (evs, .noGuardianSignature)
    | .finished (some v) =>
      if jsFalsyStr v.custodianGuardianAddress || jsFalsyStr v.custodianGuardianSignature then
        (evs, .noGuardianSignature)
      else
        let evs2 := evs ++ [OtpEvent.createAndExecute, OtpEvent.sleep otpGraceWaitMs,
          OtpEvent.finalize]
        if w.finalizeResult then
          (evs2 ++ [OtpEvent.sleep 30000, OtpEvent.getOwners], .completed)
        else (evs2, .finalizationFailed)

/-! ## Script: recovery-flow-personal-guardian (second main of the
personal-guardian index.ts) -/

/-- Required environment variables of the personal-guardian recovery flow. -/
def pgFlowRequiredEnvVars : List String :=
  ["CHAIN_ID", "NODE_URL", "RECOVERY_SERVICE_URL", "GUARDIAN_1_PRIVATE_KEY",
   "GUARDIAN_2_PRIVATE_KEY"]

/-- The fixed grace-period wait of the personal-guardian recovery flow:
`await new Promise((resolve) => setTimeout(resolve, 4 * 60 * 1000))`. -/
def pgGraceWaitMs : Nat := 4 * 60 * 1000

/-- Externally visible events of the personal-guardian recovery flow. -/
inductive PgEvent
  | getEip712Data
  | createRecoveryRequest
  | submitGuardianSig
  | executeRecovery
  | sleep (ms : Nat)
  | queryExecuted
  | finalize
  | getOwners
  deriving DecidableEq, Repr

/-- Final outcome of the personal-guardian recovery flow. -/
inductive PgOutcome
  | threw (msg : String)
  | finalizationFailed
  | completed
  deriving DecidableEq, Repr

/-- Oracle for one run of the personal-guardian recovery flow.
`executedStatus` is the status reported by
`getExecutedRecoveryRequestForLatestNonce`; it only selects a console
message in the source and does not branch the flow. -/
structure PgFlowWorld where
  env : List (String × String)
  executedStatus : Option String
  finalizeResult : Bool

/-- Embeds the second `main` of the personal-guardian index.ts (lines
345-549): env check, EIP-712 data fetch, request creation (guardian 1),
second signature submission (guardian 2), execute, 30-second settle wait,
executed-request query (log only), fixed 4-minute grace wait, finalize
(stop on a falsy result), 30-second settle wait, on-chain owner check. -/
def pgFlowRun (w : PgFlowWorld) : List PgEvent × PgOutcome :=
  let missing := missingVars w.env pgFlowRequiredEnvVars
  if missing.length > 0 then
    ([], .threw ("Missing required env vars: " ++ joinComma missing))
  else
    let evs := [PgEvent.getEip712Data, PgEvent.createRecoveryRequest,
      PgEvent.submitGuardianSig, PgEvent.executeRecovery, PgEvent.sleep 30000,
      PgEvent.queryExecuted, PgEvent.sleep pgGraceWaitMs, PgEvent.finalize]
    if w.finalizeResult then (evs ++ [PgEvent.sleep 30000, PgEvent.getOwners], .completed)
    else (evs, .finalizationFailed)

/-! ## Script: add-personal-guardian (first main of the personal-guardian
index.ts) -/

/-- Required environment variables of the add-personal-guardian script. -/
def agRequiredEnvVars : List String :=
  ["CHAIN_ID", "NODE_URL", "BUNDLER_URL", "PAYMASTER_URL", "ENTRY_POINT_ADDRESS"]

/-- Externally visible events of the add-personal-guardian script. -/
inductive AgEvent
  | isModuleEnabledQuery
  | sendTransaction (txs : List MetaTx)
  | pollReceipt
  | verifyGuardians
  deriving DecidableEq, Repr

/-- Final outcome of the add-personal-guardian script. -/
inductive AgOutcome
  | threw (msg : String)
  | done
  deriving DecidableEq, Repr

/-- Oracle for one run of the add-personal-guardian script. -/
structure AddGuardianWorld where
  env : List (String × String)
  accountAddress : String
  guardian1Address : String
  guardian2Address : String
  moduleAlreadyEnabled : Bool
  receiptSuccess : Bool

/-- Embeds the transaction batch built in lines 174-199: the enable-module
meta-transaction is pushed only when `isModuleEnabled` returned false, then
guardian 1 is added with threshold 1 and guardian 2 with threshold 2. -/
def addGuardianTxs (w : AddGuardianWorld) : List MetaTx :=
  (if w.moduleAlreadyEnabled then [] else [MetaTx.enableModule w.accountAddress])
    ++ [MetaTx.addGuardianWithThreshold w.guardian1Address 1,
        MetaTx.addGuardianWithThreshold w.guardian2Address 2]

/-- The fixed error message thrown when the batched UserOperation receipt
reports failure in the add-personal-guardian script (line 222). -/
def agFailureMsg : String := "UserOperation failed on-chain"

/-- Embeds the first `main` of the personal-guardian index.ts (lines
77-260): env check, module-enabled query, one batched UserOperation
submission, receipt poll (throw a fixed message on failure), on-chain
verification queries. -/
def addGuardianRun (w : AddGuardianWorld) : List AgEvent × AgOutcome :=
  let missing := missingVars w.env agRequiredEnvVars
  if missing.length > 0 then
    ([], .threw ("Missing required env vars: " ++ joinComma missing))
  else
    let evs := [AgEvent.isModuleEnabledQuery, AgEvent.sendTransaction (addGuardianTxs w),
      AgEvent.pollReceipt]
    if w.receiptSuccess = false then (evs, .threw agFailureMsg)
    else (evs ++ [AgEvent.verifyGuardians], .done)

/-! ## Script: enable-email-sms-recovery (part_001) -/

/-- Required environment variables of the enable-email-sms-recovery script. -/
def enableRequiredEnvVars : List String :=
  ["CHAIN_ID", "RECOVERY_SERVICE_URL", "BUNDLER_URL", "NODE_URL", "PAYMASTER_URL",
   "ENTRY_POINT_ADDRESS"]

/-- Externally visible events of the enable-email-sms-recovery script. -/
inductive EnableEvent
  | isModuleEnabledQuery
  | sendTransaction (txs : List MetaTx)
  | pollReceipt
  | createEmailRegistration
  | submitEmailChallenge
  | createSmsRegistration
  | submitSmsChallenge
  | getRegistrations
  deriving DecidableEq, Repr

/-- Final outcome of the enable-email-sms-recovery script. -/
inductive EnableOutcome
  | threw (msg : String)
  | enableFailed
  | invalidChoice
  | noGuardianAddress
  | addGuardianFailed
  | done
  deriving DecidableEq, Repr

/-- Oracle for one run of the enable-email-sms-recovery script:
environment, the module-enabled query answer, the enable-module receipt,
the channel-choice prompt input, the guardian address returned by each
registration path, and the add-guardian receipt. -/
structure EnableWorld where
  env : List (String × String)
  accountAddress : String
  moduleAlreadyEnabled : Bool
  enableReceiptSuccess : Bool
  choiceInput : String
  emailGuardianAddress : String
  smsGuardianAddress : String
  addGuardianReceiptSuccess : Bool

/-- Embeds the `candideGuardianAddress` accumulation of part_001 (lines
256-312): initialised to the empty string, set by the email registration
when the email channel is enabled, and by the SMS registration only when
the email channel is not enabled. -/
def enableGuardianAddress (w : EnableWorld) : String :=
  let sel := selectChannels w.choiceInput
  if sel.enableEmail then w.emailGuardianAddress
  else if sel.enableSms then w.smsGuardianAddress
  else ""

/-- Registration events of part_001 steps 4-5: email registration runs when
the email channel is enabled, SMS registration when the SMS channel is. -/
def enableChannelEvents (w : EnableWorld) : List EnableEvent :=
  let sel := selectChannels w.choiceInput
  (if sel.enableEmail then
      [EnableEvent.createEmailRegistration, EnableEvent.submitEmailChallenge]
    else [])
    ++ (if sel.enableSms then
      [EnableEvent.createSmsRegistration, EnableEvent.submitSmsChallenge]
    else [])

/-- Embeds part_001 from step 4 (channel choice) to the end: invalid-choice
guard, channel registrations, guardian-address guard (the empty string is
falsy), the
add-guardian UserOperation with threshold 1, its receipt check, and the
final registration listing. -/
def enableAfterModule (w : EnableWorld) (evs : List EnableEvent) :
    List EnableEvent × EnableOutcome :=
  let sel := selectChannels w.choiceInput
  if sel.invalid then (evs, .invalidChoice)
  else
    let evs := evs ++ enableChannelEvents w
    if enableGuardianAddress w = "" then (evs, .noGuardianAddress)
    else
      let evs := evs ++
        [EnableEvent.sendTransaction
          [MetaTx.addGuardianWithThreshold (enableGuardianAddress w) 1],
         EnableEvent.pollReceipt]
      if w.addGuardianReceiptSuccess = false then (evs, .addGuardianFailed)
      else (evs ++ [EnableEvent.getRegistrations], .done)

/-- Embeds `main` of part_001: env check (note the message prefix differs
from the other scripts), module-enabled query, conditional enable-module
UserOperation with receipt check (a failed receipt is a plain return), then
the channel/guardian stage. -/
def enableRun (w : EnableWorld) : List EnableEvent × EnableOutcome :=
  let missing := missingVars w.env enableRequiredEnvVars
  if missing.length > 0 then
    ([], .threw ("Missing required: " ++ joinComma missing))
  else if w.moduleAlreadyEnabled then
    enableAfterModule w [EnableEvent.isModuleEnabledQuery]
  else
    let evs := [EnableEvent.isModuleEnabledQuery,
      EnableEvent.sendTransaction [MetaTx.enableModule w.accountAddress],
      EnableEvent.pollReceipt]
    if w.enableReceiptSuccess = false then (evs, .enableFailed)
    else enableAfterModule w evs

/-! ## Script: setup-alerts -/

/-- Required environment variables of the setup-alerts script. -/
def alertsRequiredEnvVars : List String := ["CHAIN_ID", "RECOVERY_SERVICE_URL", "SEED_PHRASE"]

/-- Externally visible events of the setup-alerts script. -/
inductive AlertsEvent
  | getActiveSubs
  | createEmailSubscription
  | activateEmailSubscription
  | createSmsSubscription
  | activateSmsSubscription
  | getActiveSubsVerify
  deriving DecidableEq, Repr

/-- Final outcome of the setup-alerts script. -/
inductive AlertsOutcome
  | threw (msg : String)
  | invalidChoice
  | done
  deriving DecidableEq, Repr

/-- Oracle for one run of the setup-alerts script.  The activation results
are log-only in the source: a falsy result or a caught service error is
printed and the script continues. -/
structure AlertsWorld where
  env : List (String × String)
  choiceInput : String
  emailActivateOk : Bool
  smsActivateOk : Bool

/-- Embeds `main` of the setup-alerts script: env check, existing
subscription query, channel choice (invalid choices return), per-channel
subscription creation and OTP activation (results only logged), final
subscription listing. -/
def alertsRun (w : AlertsWorld) : List AlertsEvent × AlertsOutcome :=
  let missing := missingVars w.env alertsRequiredEnvVars
  if missing.length > 0 then
    ([], .threw ("Missing required env vars: " ++ joinComma missing))
  else
    let sel := selectChannels w.choiceInput
    if sel.invalid then ([AlertsEvent.getActiveSubs], .invalidChoice)
    else
      ([AlertsEvent.getActiveSubs]
        ++ (if sel.enableEmail then
            [AlertsEvent.createEmailSubscription, AlertsEvent.activateEmailSubscription]
          else [])
        ++ (if sel.enableSms then
            [AlertsEvent.createSmsSubscription, AlertsEvent.activateSmsSubscription]
          else [])
        ++ [AlertsEvent.getActiveSubsVerify], .done)

/-! ## Script: cancel-recovery -/

/-- Required environment variables of the cancel-recovery script. -/
def cancelRequiredEnvVars : List String :=
  ["SEED_PHRASE", "SAFE_ACCOUNT_ADDRESS", "CHAIN_ID", "NODE_URL", "BUNDLER_URL",
   "PAYMASTER_URL", "ENTRY_POINT_ADDRESS"]

/-- Externally visible events of the cancel-recovery script.  `ownerCheck`
records the client-side comparison of the lowercased seed-derived account
address against the lowercased target Safe address (lines 159-164). -/
inductive CancelEvent
  | getRecoveryRequest
  | getAccount
  | ownerCheck (derived target : String)
  | submitCancelTx (txs : List MetaTx)
  | pollReceipt
  | verifyQuery
  deriving DecidableEq, Repr

/-- Final outcome of the cancel-recovery script. -/
inductive CancelOutcome
  | threw (msg : String)
  | nothingToCancel
  | cancelledVerified
  | stillPresentWarning
  deriving DecidableEq, Repr

/-- Oracle for one run of the cancel-recovery script.  `nowMs` and
`receiptTxHash` are log-only: the former selects a warning message about
the grace period, the latter is printed on success. -/
structure CancelWorld where
  env : List (String × String)
  recoveryRequest : OnChainRecoveryRequest
  derivedAddress : String
  receiptSuccess : Bool
  receiptTxHash : String
  afterCancelExecuteAfter : Nat
  nowMs : Nat

/-- The target Safe address, read from `SAFE_ACCOUNT_ADDRESS` (the `as
string` cast maps an absent value to the empty string; the env check rules
that out on the paths that use it). -/
def cancelSafeAddress (w : CancelWorld) : String :=
  (envGet w.env "SAFE_ACCOUNT_ADDRESS").getD ""

/-- The `canFinalize` computation of lines 123-125; in the source it only
selects which console message is printed. -/
def cancelCanFinalize (w : CancelWorld) : Bool :=
  w.recoveryRequest.executeAfter * 1000 ≤ w.nowMs

/-- The fixed error message thrown when the cancellation UserOperation
receipt reports failure (line 193). -/
def cancelFailureMsg : String := "Cancellation UserOperation failed on-chain"

/-- The error message thrown when the seed phrase derives an address other
than the target Safe (lines 160-163). -/
def ownerMismatchMsg (derived target : String) : String :=
  "Seed phrase derives " ++ derived ++ ", not " ++ target ++
    ". Only the original Safe owner can cancel."

/-- Embeds `main` of the cancel-recovery script: env check, pending-recovery
query (return when `executeAfter` is 0), account derivation, client-side
owner comparison (throw on mismatch), argument-less cancel meta-transaction
submission, receipt check (throw a fixed message on failure), and the
post-cancellation verification query. -/
def cancelRun (w : CancelWorld) : List CancelEvent × CancelOutcome :=
  let missing := missingVars w.env cancelRequiredEnvVars
  if missing.length > 0 then
    ([], .threw ("Missing required env vars: " ++ joinComma missing))
  else if w.recoveryRequest.executeAfter = 0 then
    ([CancelEvent.getRecoveryRequest], .nothingToCancel)
  else
    let d := jsToLower w.derivedAddress
    let t := jsToLower (cancelSafeAddress w)
    if d ≠ t then
      ([CancelEvent.getRecoveryRequest, CancelEvent.getAccount, CancelEvent.ownerCheck d t],
        .threw (ownerMismatchMsg w.derivedAddress (cancelSafeAddress w)))
    else
      let evs := [CancelEvent.getRecoveryRequest, CancelEvent.getAccount,
        CancelEvent.ownerCheck d t, CancelEvent.submitCancelTx [MetaTx.cancelRecovery],
        CancelEvent.pollReceipt]
      if w.receiptSuccess = false then (evs, .threw cancelFailureMsg)
      else
        (evs ++ [CancelEvent.verifyQuery],
          if w.afterCancelExecuteAfter = 0 then .cancelledVerified else .stillPresentWarning)

/-! ## Script: send-userop-sponsored (standalone example in part_002) -/

/-- Configuration values read (without any validation) by the
send-userop-sponsored script; `none` means the variable is unset. -/
structure SendOpConfig where
  chainId : Option String
  nodeUrl : Option String
  bundlerUrl : Option String
  paymasterUrl : Option String
  entryPointAddress : Option String
  sponsorshipPolicyId : Option String
  deriving DecidableEq, Repr

/-- Embeds the environment reads at the top of the send-userop-sponsored
script (part_002 lines 184-190).  The script performs no check on these
values: there is no `requiredEnvVars` filter and no configuration error. -/
def sendOpConfig (env : List (String × String)) : SendOpConfig :=
  { chainId := envGet env "CHAIN_ID"
    nodeUrl := envGet env "NODE_URL"
    bundlerUrl := envGet env "BUNDLER_URL"
    paymasterUrl := envGet env "PAYMASTER_URL"
    entryPointAddress := envGet env "ENTRY_POINT_ADDRESS"
    sponsorshipPolicyId := envGet env "SPONSORSHIP_POLICY_ID" }

/-- Externally visible events of the send-userop-sponsored script. -/
inductive SendOpEvent
  | getAccount
  | sendTransaction (target : String)
  | pollReceipt
  deriving DecidableEq, Repr

/-- Final outcome of the send-userop-sponsored script. -/
inductive SendOpOutcome
  | threw (msg : String)
  | completed
  deriving DecidableEq, Repr

/-- Oracle for one run of the send-userop-sponsored script. -/
structure SendOpWorld where
  env : List (String × String)
  accountAddress : String
  receiptSuccess : Bool
  receiptTxHash : String

/-- Embeds the send-userop-sponsored script (part_002 lines 177-229): it
reads its configuration without validating it, creates the account, sends a
no-op transaction and polls for the receipt; a failed receipt throws an
error that interpolates the transaction hash. -/
def sendUseropSponsoredRun (w : SendOpWorld) : List SendOpEvent × SendOpOutcome :=
  let evs := [SendOpEvent.getAccount, SendOpEvent.sendTransaction w.accountAddress,
    SendOpEvent.pollReceipt]
  if w.receiptSuccess = false then
    (evs, .threw ("UserOperation reverted. Tx: " ++ w.receiptTxHash))
  else (evs, .completed)

/-! ## Helper lemmas -/

/-- Appending strings appends their character lists. -/
theorem strData_append (a b : String) : (a ++ b).data = a.data ++ b.data := by
  cases a
  cases b
  rfl

/-- Unfolding equation of `joinSep` on a list with at least two entries. -/
theorem joinSep_cons_cons (sep s r : String) (rs : List String) :
    joinSep sep (s :: r :: rs) = s ++ sep ++ joinSep sep (r :: rs) := rfl

/-- Every event emitted by the verification loop is an OTP submission for
some channel index at or after the starting index. -/
theorem verifyChannels_events_shape (f : Nat → VerificationResult) :
    ∀ (auths : List Auth) (i : Nat) (e : OtpEvent), e ∈ (verifyChannels f auths i).1 →
      ∃ j, i ≤ j ∧ e = OtpEvent.submitChallenge j := by
  intro auths
  induction auths with
  | nil => intro i e h; simp [verifyChannels] at h
  | cons a rest ih =>
    intro i e h
    cases hs : (f i).success with
    | true =>
      simp only [verifyChannels, hs, if_true, List.mem_cons] at h
      rcases h with h | h
      · exact ⟨i, le_refl i, h⟩
      · rcases ih (i + 1) e h with ⟨j, hj, he⟩
        exact ⟨j, by omega, he⟩
    | false =>
      simp [verifyChannels, hs] at h
      exact ⟨i, le_refl i, h⟩

/-- The verification loop submits each channel index at most once: no
per-channel retry happens. -/
theorem verifyChannels_count_le_one (f : Nat → VerificationResult) :
    ∀ (auths : List Auth) (i j : Nat),
      ((verifyChannels f auths i).1).count (OtpEvent.submitChallenge j) ≤ 1 := by
  intro auths
  induction auths with
  | nil => intro i j; simp [verifyChannels]
  | cons a rest ih =>
    intro i j
    cases hs : (f i).success with
    | true =>
      simp only [verifyChannels, hs, if_true, List.count_cons]
      by_cases hj : j = i
      · subst hj
        have hz : ((verifyChannels f rest (j + 1)).1).count (OtpEvent.submitChallenge j) = 0 := by
          rw [List.count_eq_zero]
          intro hmem
          rcases verifyChannels_events_shape f rest (j + 1) _ hmem with ⟨k, hk, he⟩
          have : j = k := OtpEvent.submitChallenge.inj he
          omega
        simp [hz]
      · have hne : (OtpEvent.submitChallenge i == OtpEvent.submitChallenge j) = false := by
          simp
          omega
        simp only [hne, Bool.false_eq_true, if_false]
        have := ih (i + 1) j
        omega
    | false =>
      simp only [verifyChannels, hs]
      by_cases hj : j = i
      · subst hj; simp [List.count_cons]
      · simp [List.count_cons, hj]

/-- If the loop submitted channel `j` and that submission was rejected, the
loop result is failure at `j`. -/
theorem verifyChannels_mem_fail (f : Nat → VerificationResult) :
    ∀ (auths : List Auth) (i j : Nat),
      OtpEvent.submitChallenge j ∈ (verifyChannels f auths i).1 →
      (f j).success = false →
      (verifyChannels f auths i).2 = VerifyOutcome.failed j := by
  intro auths
  induction auths with
  | nil => intro i j h; simp [verifyChannels] at h
  | cons a rest ih =>
    intro i j h hfail
    cases hs : (f i).success with
    | true =>
      simp only [verifyChannels, hs, if_true, List.mem_cons] at h ⊢
      rcases h with h | h
      · have : j = i := OtpEvent.submitChallenge.inj h
        subst this
        rw [hfail] at hs
        exact absurd hs (by simp)
      · have := ih (i + 1) j h hfail
        rw [this]
    | false =>
      simp [verifyChannels, hs] at h ⊢
      have : j = i := OtpEvent.submitChallenge.inj (by rw [h])
      subst this
      rfl

/-- Events that are not OTP submissions never occur in the loop trace. -/
theorem verifyChannels_not_mem (f : Nat → VerificationResult) (auths : List Auth) (i : Nat)
    (e : OtpEvent) (he : ∀ j, e ≠ OtpEvent.submitChallenge j) :
    e ∉ (verifyChannels f auths i).1 := by
  intro hmem
  rcases verifyChannels_events_shape f auths i e hmem with ⟨j, _, hj⟩
  exact he j hj

/-- A member of a joined list occurs contiguously in the joined string:
the configuration error message names every missing variable. -/
theorem joinComma_mem_sub {v : String} :
    ∀ {l : List String}, v ∈ l →
      ∃ pre post, (joinComma l).data = pre ++ v.data ++ post := by
  intro l
  induction l with
  | nil => intro h; simp at h
  | cons s rest ih =>
    intro h
    rcases List.mem_cons.mp h with h | h
    · subst h
      cases rest with
      | nil => exact ⟨[], [], by simp [joinComma, joinSep]⟩
      | cons r rs =>
        refine ⟨[], (", " : String).data ++ (joinComma (r :: rs)).data, ?_⟩
        show (joinSep ", " (v :: r :: rs)).data = _
        rw [joinSep_cons_cons, strData_append, strData_append]
        simp [joinComma, List.append_assoc]
    · cases rest with
      | nil => simp at h
      | cons r rs =>
        rcases ih h with ⟨pre, post, hp⟩
        refine ⟨(s ++ ", ").data ++ pre, post, ?_⟩
        show (joinSep ", " (s :: r :: rs)).data = _
        rw [joinSep_cons_cons, strData_append, strData_append]
        rw [show (joinSep ", " (r :: rs)).data = (joinComma (r :: rs)).data from rfl, hp]
        simp [List.append_assoc]

/-! ## Concrete environments for witnesses -/

/-- A complete environment for the OTP recovery flow. -/
def otpEnvOk : List (String × String) :=
  [("CHAIN_ID", "11155111"), ("RECOVERY_SERVICE_URL", "https://service.example"),
   ("NODE_URL", "https://rpc.example")]

/-- A complete environment for the personal-guardian recovery flow. -/
def pgEnvOk : List (String × String) :=
  [("CHAIN_ID", "11155111"), ("NODE_URL", "https://rpc.example"),
   ("RECOVERY_SERVICE_URL", "https://service.example"),
   ("GUARDIAN_1_PRIVATE_KEY", "0x01"), ("GUARDIAN_2_PRIVATE_KEY", "0x02")]

/-! ## Claim C1 -/

/-- C1: in the custodial (OTP) recovery flow, approval collection fails
closed.  In every run in which some channel OTP submission was made and
rejected, the whole flow aborts with the verification-failed outcome,
`createAndExecuteRecoveryRequest` is never called, and no channel is
submitted more than once (no per-channel retry). -/
theorem c1_otp_fails_closed : ∀ (w : OtpWorld) (i : Nat),
    OtpEvent.submitChallenge i ∈ (otpFlowRun w).1 →
    (w.submitRes i).success = false →
    (otpFlowRun w).2 = OtpOutcome.verificationFailed ∧
    OtpEvent.createAndExecute ∉ (otpFlowRun w).1 ∧
    (∀ j, ((otpFlowRun w).1).count (OtpEvent.submitChallenge j) ≤ 1) := by
  intro w i hmem hfail
  by_cases henv : (missingVars w.env otpRequiredEnvVars).length > 0
  · rw [show (otpFlowRun w).1 = [] from by simp [otpFlowRun, henv]] at hmem
    simp at hmem
  · have hmemv : OtpEvent.submitChallenge i ∈ (verifyChannels w.submitRes w.auths 0).1 := by
      rcases hv : (verifyChannels w.submitRes w.auths 0).2 with k | vr
      · rw [show (otpFlowRun w).1 =
            OtpEvent.requestChallenge :: (verifyChannels w.submitRes w.auths 0).1 from by
          simp [otpFlowRun, henv, hv]] at hmem
        simpa using hmem
      · rcases vr with _ | v
        · rw [show (otpFlowRun w).1 =
              OtpEvent.requestChallenge :: (verifyChannels w.submitRes w.auths 0).1 from by
            simp [otpFlowRun, henv, hv]] at hmem
          simpa using hmem
        · by_cases hg : (jsFalsyStr v.custodianGuardianAddress ||
              jsFalsyStr v.custodianGuardianSignature) = true
          · rw [show (otpFlowRun w).1 =
                OtpEvent.requestChallenge :: (verifyChannels w.submitRes w.auths 0).1 from by
              simp [otpFlowRun, henv, hv, hg]] at hmem
            simpa using hmem
          · cases hf : w.finalizeResult with
            | true =>
              rw [show (otpFlowRun w).1 =
                  OtpEvent.requestChallenge :: (verifyChannels w.submitRes w.auths 0).1 ++
                    [OtpEvent.createAndExecute, OtpEvent.sleep otpGraceWaitMs,
                     OtpEvent.finalize, OtpEvent.sleep 30000, OtpEvent.getOwners] from by
                simp [otpFlowRun, henv, hv, hg, hf]] at hmem
              simpa using hmem
            | false =>
              rw [show (otpFlowRun w).1 =
                  OtpEvent.requestChallenge :: (verifyChannels w.submitRes w.auths 0).1 ++
                    [OtpEvent.createAndExecute, OtpEvent.sleep otpGraceWaitMs,
                     OtpEvent.finalize] from by
                simp [otpFlowRun, henv, hv, hg, hf]] at hmem
              simpa using hmem
    have hfailed := verifyChannels_mem_fail w.submitRes w.auths 0 i hmemv hfail
    have htr : (otpFlowRun w).1 =
        OtpEvent.requestChallenge :: (verifyChannels w.submitRes w.auths 0).1 := by
      simp [otpFlowRun, henv, hfailed]
    have hout : (otpFlowRun w).2 = OtpOutcome.verificationFailed := by
      simp [otpFlowRun, henv, hfailed]
    refine ⟨hout, ?_, ?_⟩
    · rw [htr]
      intro hm
      rcases List.mem_cons.mp hm with hm | hm
      · simp at hm
      · exact verifyChannels_not_mem _ _ _ _ (fun j => by simp) hm
    · intro j
      rw [htr, List.count_cons]
      have h1 := verifyChannels_count_le_one w.submitRes w.auths 0 j
      have h0 : (OtpEvent.requestChallenge == OtpEvent.submitChallenge j) = false := by simp
      simp only [h0, Bool.false_eq_true, if_false]
      omega

/-- Concrete input for the C1 witness: one registered channel whose OTP
submission is rejected. -/
def c1World : OtpWorld :=
  { env := otpEnvOk
    auths := [⟨"email", "user", "ch1"⟩]
    submitRes := fun _ => ⟨false, none, none⟩
    finalizeResult := true }

/-- C1 witness at a concrete run: the rejected channel aborts the flow
before any execute call. -/
theorem c1_otp_fails_closed_witness :
    (otpFlowRun c1World).2 = OtpOutcome.verificationFailed ∧
    OtpEvent.createAndExecute ∉ (otpFlowRun c1World).1 ∧
    ((otpFlowRun c1World).1).count (OtpEvent.submitChallenge 0) ≤ 1 := by
  have h := c1_otp_fails_closed c1World 0 (by decide) rfl
  exact ⟨h.1, h.2.1, h.2.2 0⟩

/-! ## Claim C2 -/

/-- C2: every `SocialRecoveryModule` / `RecoveryByGuardian` construction in
the repository passes the same grace-period selector, `After3Minutes`, so
all scripts address the same module instance; in particular the selectors
of any two construction sites are identical. -/
theorem c2_selector_consistency :
    (selectorSites.all (fun p => p.2 == GracePeriodSelector.After3Minutes)) = true ∧
    List.Pairwise (fun p q => p.2 = q.2) selectorSites := by
  constructor
  · rfl
  · decide

/-! ## Claim C5 -/

/-- C5: in both recovery-flow scripts, a falsy `finalizeRecoveryRequest`
result stops the flow: the outcome is the finalization-failed return,
finalize is called exactly once (no retry), and the on-chain owner
verification step is never reached. -/
theorem c5_finalize_falsy_stops : ∀ (w : OtpWorld) (w2 : PgFlowWorld),
    (w.finalizeResult = false → OtpEvent.finalize ∈ (otpFlowRun w).1 →
      (otpFlowRun w).2 = OtpOutcome.finalizationFailed ∧
      ((otpFlowRun w).1).count OtpEvent.finalize = 1 ∧
      OtpEvent.getOwners ∉ (otpFlowRun w).1) ∧
    (missingVars w2.env pgFlowRequiredEnvVars = [] → w2.finalizeResult = false →
      (pgFlowRun w2).2 = PgOutcome.finalizationFailed ∧
      ((pgFlowRun w2).1).count PgEvent.finalize = 1 ∧
      PgEvent.getOwners ∉ (pgFlowRun w2).1) := by
  intro w w2
  constructor
  · intro hfin hmem
    by_cases henv : (missingVars w.env otpRequiredEnvVars).length > 0
    · rw [show (otpFlowRun w).1 = [] from by simp [otpFlowRun, henv]] at hmem
      simp at hmem
    · rcases hv : (verifyChannels w.submitRes w.auths 0).2 with k | vr
      · rw [show (otpFlowRun w).1 =
            OtpEvent.requestChallenge :: (verifyChannels w.submitRes w.auths 0).1 from by
          simp [otpFlowRun, henv, hv]] at hmem
        rcases List.mem_cons.mp hmem with hm | hm
        · simp at hm
        · exact absurd hm (verifyChannels_not_mem _ _ _ _ (fun j => by simp))
      · rcases vr with _ | v
        · rw [show (otpFlowRun w).1 =
              OtpEvent.requestChallenge :: (verifyChannels w.submitRes w.auths 0).1 from by
            simp [otpFlowRun, henv, hv]] at hmem
          rcases List.mem_cons.mp hmem with hm | hm
          · simp at hm
          · exact absurd hm (verifyChannels_not_mem _ _ _ _ (fun j => by simp))
        · by_cases hg : (jsFalsyStr v.custodianGuardianAddress ||
              jsFalsyStr v.custodianGuardianSignature) = true
          · rw [show (otpFlowRun w).1 =
                OtpEvent.requestChallenge :: (verifyChannels w.submitRes w.auths 0).1 from by
              simp [otpFlowRun, henv, hv, hg]] at hmem
            rcases List.mem_cons.mp hmem with hm | hm
            · simp at hm
            · exact absurd hm (verifyChannels_not_mem _ _ _ _ (fun j => by simp))
          · have htr : (otpFlowRun w).1 =
                OtpEvent.requestChallenge :: (verifyChannels w.submitRes w.auths 0).1 ++
                  [OtpEvent.createAndExecute, OtpEvent.sleep otpGraceWaitMs,
                   OtpEvent.finalize] := by
              simp [otpFlowRun, henv, hv, hg, hfin]
            have hout : (otpFlowRun w).2 = OtpOutcome.finalizationFailed := by
              simp [otpFlowRun, henv, hv, hg, hfin]
            refine ⟨hout, ?_, ?_⟩
            · rw [htr]
              have hz : ((verifyChannels w.submitRes w.auths 0).1).count OtpEvent.finalize
                  = 0 := by
                rw [List.count_eq_zero]
                exact verifyChannels_not_mem _ _ _ _ (fun j => by simp)
              simp [List.count_cons, List.count_append, hz]
            · rw [htr]
              intro hm
              rcases List.mem_cons.mp hm with hm | hm
              · simp at hm
              · rcases List.mem_append.mp hm with hm | hm
                · exact verifyChannels_not_mem _ _ _ _ (fun j => by simp) hm
                · simp at hm
  · intro henv hfin
    have htr : (pgFlowRun w2).1 =
        [PgEvent.getEip712Data, PgEvent.createRecoveryRequest, PgEvent.submitGuardianSig,
         PgEvent.executeRecovery, PgEvent.sleep 30000, PgEvent.queryExecuted,
         PgEvent.sleep pgGraceWaitMs, PgEvent.finalize] := by
      simp [pgFlowRun, henv, hfin]
    have hout : (pgFlowRun w2).2 = PgOutcome.finalizationFailed := by
      simp [pgFlowRun, henv, hfin]
    refine ⟨hout, ?_, ?_⟩
    · rw [htr]; decide
    · rw [htr]; decide

/-- Concrete input for the C5 witness in the OTP flow: all verifications
succeed but finalization reports failure. -/
def c5OtpWorld : OtpWorld :=
  { env := otpEnvOk
    auths := [⟨"email", "user", "ch1"⟩]
    submitRes := fun _ => ⟨true, some "0xguardian", some "0xsig"⟩
    finalizeResult := false }

/-- Concrete input for the C5 witness in the personal-guardian flow. -/
def c5PgWorld : PgFlowWorld :=
  { env := pgEnvOk
    executedStatus := some "EXECUTED"
    finalizeResult := false }

/-- C5 witness at concrete runs of both recovery flows. -/
theorem c5_finalize_falsy_stops_witness :
    (otpFlowRun c5OtpWorld).2 = OtpOutcome.finalizationFailed ∧
    OtpEvent.getOwners ∉ (otpFlowRun c5OtpWorld).1 ∧
    (pgFlowRun c5PgWorld).2 = PgOutcome.finalizationFailed ∧
    PgEvent.getOwners ∉ (pgFlowRun c5PgWorld).1 := by
  have h := c5_finalize_falsy_stops c5OtpWorld c5PgWorld
  have h1 := h.1 rfl (by decide)
  have h2 := h.2 (by decide) rfl
  exact ⟨h1.1, h1.2.2, h2.1, h2.2.2⟩

/-! ## Claim C3 -/

/-- C3 (amended): the grace-period wait of both recovery flows is a fixed
timed suspension of 4 minutes (240000 ms), not a poll against chain state
and not the 3-minute policy duration (180000 ms) of the `After3Minutes`
selector; whenever the execute step happens, the trace continues with
exactly the fixed sleep and then finalize. -/
theorem c3_grace_wait_fixed (w : OtpWorld) (w2 : PgFlowWorld) :
    gracePeriodMs GracePeriodSelector.After3Minutes = 180000 ∧
    otpGraceWaitMs = 240000 ∧ pgGraceWaitMs = 240000 ∧
    (OtpEvent.createAndExecute ∈ (otpFlowRun w).1 →
      (otpFlowRun w).1 =
        (OtpEvent.requestChallenge :: (verifyChannels w.submitRes w.auths 0).1) ++
          [OtpEvent.createAndExecute, OtpEvent.sleep otpGraceWaitMs, OtpEvent.finalize] ++
          (if w.finalizeResult then [OtpEvent.sleep 30000, OtpEvent.getOwners] else [])) ∧
    (missingVars w2.env pgFlowRequiredEnvVars = [] →
      (pgFlowRun w2).1 =
        [PgEvent.getEip712Data, PgEvent.createRecoveryRequest, PgEvent.submitGuardianSig,
         PgEvent.executeRecovery, PgEvent.sleep 30000, PgEvent.queryExecuted,
         PgEvent.sleep pgGraceWaitMs, PgEvent.finalize] ++
          (if w2.finalizeResult then [PgEvent.sleep 30000, PgEvent.getOwners] else [])) := by
  refine ⟨rfl, rfl, rfl, ?_, ?_⟩
  · intro hmem
    by_cases henv : (missingVars w.env otpRequiredEnvVars).length > 0
    · rw [show (otpFlowRun w).1 = [] from by simp [otpFlowRun, henv]] at hmem
      simp at hmem
    · rcases hv : (verifyChannels w.submitRes w.auths 0).2 with k | vr
      · rw [show (otpFlowRun w).1 =
            OtpEvent.requestChallenge :: (verifyChannels w.submitRes w.auths 0).1 from by
          simp [otpFlowRun, henv, hv]] at hmem
        rcases List.mem_cons.mp hmem with hm | hm
        · simp at hm
        · exact absurd hm (verifyChannels_not_mem _ _ _ _ (fun j => by simp))
      · rcases vr with _ | v
        · rw [show (otpFlowRun w).1 =
              OtpEvent.requestChallenge :: (verifyChannels w.submitRes w.auths 0).1 from by
            simp [otpFlowRun, henv, hv]] at hmem
          rcases List.mem_cons.mp hmem with hm | hm
          · simp at hm
          · exact absurd hm (verifyChannels_not_mem _ _ _ _ (fun j => by simp))
        · by_cases hg : (jsFalsyStr v.custodianGuardianAddress ||
              jsFalsyStr v.custodianGuardianSignature) = true
          · rw [show (otpFlowRun w).1 =
                OtpEvent.requestChallenge :: (verifyChannels w.submitRes w.auths 0).1 from by
              simp [otpFlowRun, henv, hv, hg]] at hmem
            rcases List.mem_cons.mp hmem with hm | hm
            · simp at hm
            · exact absurd hm (verifyChannels_not_mem _ _ _ _ (fun j => by simp))
          · cases hf : w.finalizeResult with
            | true => simp [otpFlowRun, henv, hv, hg, hf]
            | false => simp [otpFlowRun, henv, hv, hg, hf]
  · intro henv
    cases hf : w2.finalizeResult with
    | true => simp [pgFlowRun, henv, hf]
    | false => simp [pgFlowRun, henv, hf]

/-- Concrete input for C3: a fully successful OTP recovery run. -/
def c3OtpWorld : OtpWorld :=
  { env := otpEnvOk
    auths := [⟨"sms", "+1555", "ch1"⟩]
    submitRes := fun _ => ⟨true, some "0xguardian", some "0xsig"⟩
    finalizeResult := true }

/-- Concrete input for C3: a fully successful personal-guardian run. -/
def c3PgWorld : PgFlowWorld :=
  { env := pgEnvOk
    executedStatus := some "EXECUTED"
    finalizeResult := true }

/-- C3 counterexample to the claim as stated: in a concrete successful run
of the OTP flow, the wait between execute and finalize is the fixed
4-minute sleep; no sleep of the policy duration (3 minutes) occurs, and the
two durations differ. -/
theorem c3_counterexample :
    otpGraceWaitMs ≠ gracePeriodMs GracePeriodSelector.After3Minutes ∧
    (otpFlowRun c3OtpWorld).1 =
      [OtpEvent.requestChallenge, OtpEvent.submitChallenge 0, OtpEvent.createAndExecute,
       OtpEvent.sleep otpGraceWaitMs, OtpEvent.finalize, OtpEvent.sleep 30000,
       OtpEvent.getOwners] ∧
    OtpEvent.sleep (gracePeriodMs GracePeriodSelector.After3Minutes) ∉
      (otpFlowRun c3OtpWorld).1 ∧
    PgEvent.sleep (gracePeriodMs GracePeriodSelector.After3Minutes) ∉
      (pgFlowRun c3PgWorld).1 := by
  refine ⟨by decide, by decide, by decide, by decide⟩

/-- C3 witness at concrete runs of both recovery flows. -/
theorem c3_grace_wait_fixed_witness :
    (otpFlowRun c3OtpWorld).1 =
      [OtpEvent.requestChallenge, OtpEvent.submitChallenge 0, OtpEvent.createAndExecute,
       OtpEvent.sleep otpGraceWaitMs, OtpEvent.finalize, OtpEvent.sleep 30000,
       OtpEvent.getOwners] ∧
    (pgFlowRun c3PgWorld).1 =
      [PgEvent.getEip712Data, PgEvent.createRecoveryRequest, PgEvent.submitGuardianSig,
       PgEvent.executeRecovery, PgEvent.sleep 30000, PgEvent.queryExecuted,
       PgEvent.sleep pgGraceWaitMs, PgEvent.finalize, PgEvent.sleep 30000,
       PgEvent.getOwners] := by
  have h := c3_grace_wait_fixed c3OtpWorld c3PgWorld
  have h1 := h.2.2.2.1 (by decide)
  have h2 := h.2.2.2.2 (by decide)
  constructor
  · rw [h1]; decide
  · rw [h2]; decide

/-! ## Claim C7 -/

/-- C7: when the on-chain recovery request has `executeAfter = 0` (no
pending recovery), the cancel script returns right after the query, without
building or submitting any cancellation transaction and without touching
any external state. -/
theorem c7_cancel_noop_when_no_pending : ∀ w : CancelWorld,
    missingVars w.env cancelRequiredEnvVars = [] →
    w.recoveryRequest.executeAfter = 0 →
    cancelRun w = ([CancelEvent.getRecoveryRequest], CancelOutcome.nothingToCancel) ∧
    (∀ txs, CancelEvent.submitCancelTx txs ∉ (cancelRun w).1) := by
  intro w henv h0
  have hrun : cancelRun w = ([CancelEvent.getRecoveryRequest], CancelOutcome.nothingToCancel) := by
    simp [cancelRun, henv, h0]
  refine ⟨hrun, ?_⟩
  intro txs
  rw [hrun]
  simp

/-- A complete environment for the cancel-recovery script; the target Safe
address is `0xAbCd`. -/
def cancelEnvOk : List (String × String) :=
  [("SEED_PHRASE", "test junk"), ("SAFE_ACCOUNT_ADDRESS", "0xAbCd"),
   ("CHAIN_ID", "11155111"), ("NODE_URL", "n"), ("BUNDLER_URL", "b"),
   ("PAYMASTER_URL", "p"), ("ENTRY_POINT_ADDRESS", "e")]

/-- Concrete input for the C7 witness: no pending recovery on-chain. -/
def c7World : CancelWorld :=
  { env := cancelEnvOk
    recoveryRequest := ⟨0, [], 0⟩
    derivedAddress := "0xabcd"
    receiptSuccess := true
    receiptTxHash := "0xhash"
    afterCancelExecuteAfter := 0
    nowMs := 0 }

/-- C7 witness at a concrete run. -/
theorem c7_cancel_noop_when_no_pending_witness :
    cancelRun c7World = ([CancelEvent.getRecoveryRequest], CancelOutcome.nothingToCancel) ∧
    CancelEvent.submitCancelTx [MetaTx.cancelRecovery] ∉ (cancelRun c7World).1 := by
  have h := c7_cancel_noop_when_no_pending c7World (by decide) rfl
  exact ⟨h.1, h.2 [MetaTx.cancelRecovery]⟩

/-! ## Claim C4 -/

/-- C4 (amended): before submitting a cancellation the script does perform
one client-side authorization comparison: it checks that the lowercased
seed-derived account address equals the lowercased target Safe address and
throws on mismatch without submitting anything.  When they match, the
cancellation is submitted as the argument-less cancel meta-transaction,
with on-chain authorization left to the Safe being the message sender. -/
theorem c4_cancel_owner_comparison (w : CancelWorld)
    (henv : missingVars w.env cancelRequiredEnvVars = [])
    (hpend : w.recoveryRequest.executeAfter ≠ 0) :
    CancelEvent.ownerCheck (jsToLower w.derivedAddress) (jsToLower (cancelSafeAddress w))
      ∈ (cancelRun w).1 ∧
    (jsToLower w.derivedAddress ≠ jsToLower (cancelSafeAddress w) →
      (cancelRun w).2 =
        CancelOutcome.threw (ownerMismatchMsg w.derivedAddress (cancelSafeAddress w)) ∧
      ∀ txs, CancelEvent.submitCancelTx txs ∉ (cancelRun w).1) ∧
    (jsToLower w.derivedAddress = jsToLower (cancelSafeAddress w) →
      CancelEvent.submitCancelTx [MetaTx.cancelRecovery] ∈ (cancelRun w).1) := by
  by_cases hd : jsToLower w.derivedAddress = jsToLower (cancelSafeAddress w)
  · refine ⟨?_, fun hne => absurd hd hne, fun _ => ?_⟩
    · cases hr : w.receiptSuccess with
      | true => simp [cancelRun, henv, hpend, hd, hr]
      | false => simp [cancelRun, henv, hpend, hd, hr]
    · cases hr : w.receiptSuccess with
      | true => simp [cancelRun, henv, hpend, hd, hr]
      | false => simp [cancelRun, henv, hpend, hd, hr]
  · have htr : (cancelRun w).1 =
        [CancelEvent.getRecoveryRequest, CancelEvent.getAccount,
         CancelEvent.ownerCheck (jsToLower w.derivedAddress)
           (jsToLower (cancelSafeAddress w))] := by
      simp [cancelRun, henv, hpend, hd]
    have hout : (cancelRun w).2 =
        CancelOutcome.threw (ownerMismatchMsg w.derivedAddress (cancelSafeAddress w)) := by
      simp [cancelRun, henv, hpend, hd]
    refine ⟨?_, fun _ => ⟨hout, ?_⟩, fun heq => absurd heq hd⟩
    · rw [htr]; simp
    · intro txs
      rw [htr]
      simp

/-- Concrete input for the C4 counterexample: a pending recovery, but the
seed phrase derives `0xFfFf` while the target Safe is `0xAbCd`. -/
def c4MismatchWorld : CancelWorld :=
  { env := cancelEnvOk
    recoveryRequest := ⟨1700000000, ["0xNewOwner"], 1⟩
    derivedAddress := "0xFfFf"
    receiptSuccess := true
    receiptTxHash := "0xhash"
    afterCancelExecuteAfter := 0
    nowMs := 0 }

/-- C4 counterexample to the claim as stated: a concrete run with a pending
recovery in which the script does compare the signer identity against the
target Safe client-side, throws, and never builds or submits the
cancellation. -/
theorem c4_counterexample :
    c4MismatchWorld.recoveryRequest.executeAfter ≠ 0 ∧
    (cancelRun c4MismatchWorld).1 =
      [CancelEvent.getRecoveryRequest, CancelEvent.getAccount,
       CancelEvent.ownerCheck "0xffff" "0xabcd"] ∧
    (cancelRun c4MismatchWorld).2 =
      CancelOutcome.threw (ownerMismatchMsg "0xFfFf" "0xAbCd") := by
  refine ⟨by decide, by decide, by decide⟩

/-- Concrete input for the C4 witness: the derived address matches the
target Safe up to case. -/
def c4MatchWorld : CancelWorld :=
  { env := cancelEnvOk
    recoveryRequest := ⟨1700000000, ["0xNewOwner"], 1⟩
    derivedAddress := "0xABcd"
    receiptSuccess := true
    receiptTxHash := "0xhash"
    afterCancelExecuteAfter := 0
    nowMs := 0 }

/-- C4 witness at a concrete matching run. -/
theorem c4_cancel_owner_comparison_witness :
    CancelEvent.ownerCheck (jsToLower c4MatchWorld.derivedAddress)
      (jsToLower (cancelSafeAddress c4MatchWorld)) ∈ (cancelRun c4MatchWorld).1 ∧
    CancelEvent.submitCancelTx [MetaTx.cancelRecovery] ∈ (cancelRun c4MatchWorld).1 := by
  have h := c4_cancel_owner_comparison c4MatchWorld (by decide) (by decide)
  exact ⟨h.1, h.2.2 (by decide)⟩

/-! ## Claim C6 -/

/-- C6 (amended): a failed inclusion receipt is fatal in every script — no
subsequent step runs — but in the recovery scripts the surfaced error is a
fixed message that does not interpolate the transaction identifier (and
the enable-module failure in the email/SMS setup script is a plain return,
not an error); only the standalone send-userop example interpolates the
transaction hash into its error. -/
theorem c6_submission_failures_fatal :
    (∀ w : CancelWorld, missingVars w.env cancelRequiredEnvVars = [] →
      w.recoveryRequest.executeAfter ≠ 0 →
      jsToLower w.derivedAddress = jsToLower (cancelSafeAddress w) →
      w.receiptSuccess = false →
      (cancelRun w).2 = CancelOutcome.threw cancelFailureMsg ∧
      CancelEvent.verifyQuery ∉ (cancelRun w).1) ∧
    (∀ w : AddGuardianWorld, missingVars w.env agRequiredEnvVars = [] →
      w.receiptSuccess = false →
      (addGuardianRun w).2 = AgOutcome.threw agFailureMsg ∧
      AgEvent.verifyGuardians ∉ (addGuardianRun w).1) ∧
    (∀ w : EnableWorld, missingVars w.env enableRequiredEnvVars = [] →
      w.moduleAlreadyEnabled = false → w.enableReceiptSuccess = false →
      enableRun w = ([EnableEvent.isModuleEnabledQuery,
        EnableEvent.sendTransaction [MetaTx.enableModule w.accountAddress],
        EnableEvent.pollReceipt], EnableOutcome.enableFailed)) ∧
    (∀ w : SendOpWorld, w.receiptSuccess = false →
      (sendUseropSponsoredRun w).2 =
        SendOpOutcome.threw ("UserOperation reverted. Tx: " ++ w.receiptTxHash)) := by
  refine ⟨?_, ?_, ?_, ?_⟩
  · intro w henv hpend hd hr
    constructor
    · simp [cancelRun, henv, hpend, hd, hr]
    · rw [show (cancelRun w).1 =
          [CancelEvent.getRecoveryRequest, CancelEvent.getAccount,
           CancelEvent.ownerCheck (jsToLower w.derivedAddress)
             (jsToLower (cancelSafeAddress w)),
           CancelEvent.submitCancelTx [MetaTx.cancelRecovery],
           CancelEvent.pollReceipt] from by simp [cancelRun, henv, hpend, hd, hr]]
      simp
  · intro w henv hr
    constructor
    · simp [addGuardianRun, henv, hr]
    · rw [show (addGuardianRun w).1 =
          [AgEvent.isModuleEnabledQuery, AgEvent.sendTransaction (addGuardianTxs w),
           AgEvent.pollReceipt] from by simp [addGuardianRun, henv, hr]]
      simp
  · intro w henv hmod hr
    simp [enableRun, henv, hmod, hr]
  · intro w hr
    simp [sendUseropSponsoredRun, hr]

/-- Concrete input for the C6 counterexample: a cancellation whose receipt
reports failure and provides the transaction hash `0xdeadbeef`. -/
def c6CancelWorld : CancelWorld :=
  { env := cancelEnvOk
    recoveryRequest := ⟨1700000000, ["0xNewOwner"], 1⟩
    derivedAddress := "0xABCD"
    receiptSuccess := false
    receiptTxHash := "0xdeadbeef"
    afterCancelExecuteAfter := 1
    nowMs := 0 }

/-- C6 counterexample to the claim as stated: the receipt provides a
transaction identifier, but the error surfaced by the cancel script is the
fixed message, which does not contain that identifier. -/
theorem c6_counterexample :
    c6CancelWorld.receiptTxHash = "0xdeadbeef" ∧
    (cancelRun c6CancelWorld).2 = CancelOutcome.threw cancelFailureMsg ∧
    hasSub cancelFailureMsg.data c6CancelWorld.receiptTxHash.data = false := by
  refine ⟨rfl, by decide, by decide⟩

/-- A complete environment for the add-personal-guardian script. -/
def agEnvOk : List (String × String) :=
  [("CHAIN_ID", "11155111"), ("NODE_URL", "n"), ("BUNDLER_URL", "b"),
   ("PAYMASTER_URL", "p"), ("ENTRY_POINT_ADDRESS", "e")]

/-- Concrete input for the C6 witness in the add-personal-guardian script. -/
def c6AgWorld : AddGuardianWorld :=
  { env := agEnvOk
    accountAddress := "0xSafe"
    guardian1Address := "0xG1"
    guardian2Address := "0xG2"
    moduleAlreadyEnabled := false
    receiptSuccess := false }

/-- Concrete input for the C6 witness in the send-userop-sponsored script. -/
def c6SendOpWorld : SendOpWorld :=
  { env := []
    accountAddress := "0xAcc"
    receiptSuccess := false
    receiptTxHash := "0xdeadbeef" }

/-- C6 witness at concrete runs. -/
theorem c6_submission_failures_fatal_witness :
    (cancelRun c6CancelWorld).2 = CancelOutcome.threw cancelFailureMsg ∧
    (addGuardianRun c6AgWorld).2 = AgOutcome.threw agFailureMsg ∧
    AgEvent.verifyGuardians ∉ (addGuardianRun c6AgWorld).1 ∧
    (sendUseropSponsoredRun c6SendOpWorld).2 =
      SendOpOutcome.threw ("UserOperation reverted. Tx: " ++ "0xdeadbeef") := by
  have h := c6_submission_failures_fatal
  have h1 := h.1 c6CancelWorld (by decide) (by decide) (by decide) rfl
  have h2 := h.2.1 c6AgWorld (by decide) rfl
  have h4 := h.2.2.2 c6SendOpWorld rfl
  exact ⟨h1.1, h2.1, h2.2, h4⟩

/-! ## Claim C8 -/

/-- C8 (amended): each of the six recovery-script mains filters its
required environment variables first and, when any is unset or empty,
throws an error listing exactly the missing variables (the
enable-email-sms script with the prefix `Missing required: `, the others
with `Missing required env vars: `) before any remote event; the joined
message contains every missing variable name.  The standalone
send-userop-sponsored example performs no such check and reaches its
remote calls regardless of the environment. -/
theorem c8_config_errors (w1 : OtpWorld) (w2 : PgFlowWorld) (w3 : AddGuardianWorld)
    (w4 : EnableWorld) (w5 : AlertsWorld) (w6 : CancelWorld) (w7 : SendOpWorld) :
    (missingVars w1.env otpRequiredEnvVars ≠ [] →
      otpFlowRun w1 = ([], OtpOutcome.threw
        ("Missing required env vars: " ++ joinComma (missingVars w1.env otpRequiredEnvVars)))) ∧
    (missingVars w2.env pgFlowRequiredEnvVars ≠ [] →
      pgFlowRun w2 = ([], PgOutcome.threw
        ("Missing required env vars: " ++ joinComma (missingVars w2.env pgFlowRequiredEnvVars)))) ∧
    (missingVars w3.env agRequiredEnvVars ≠ [] →
      addGuardianRun w3 = ([], AgOutcome.threw
        ("Missing required env vars: " ++ joinComma (missingVars w3.env agRequiredEnvVars)))) ∧
    (missingVars w4.env enableRequiredEnvVars ≠ [] →
      enableRun w4 = ([], EnableOutcome.threw
        ("Missing required: " ++ joinComma (missingVars w4.env enableRequiredEnvVars)))) ∧
    (missingVars w5.env alertsRequiredEnvVars ≠ [] →
      alertsRun w5 = ([], AlertsOutcome.threw
        ("Missing required env vars: " ++ joinComma (missingVars w5.env alertsRequiredEnvVars)))) ∧
    (missingVars w6.env cancelRequiredEnvVars ≠ [] →
      cancelRun w6 = ([], CancelOutcome.threw
        ("Missing required env vars: " ++ joinComma (missingVars w6.env cancelRequiredEnvVars)))) ∧
    (∀ v ∈ missingVars w1.env otpRequiredEnvVars, ∃ pre post,
      ("Missing required env vars: " ++
        joinComma (missingVars w1.env otpRequiredEnvVars)).data = pre ++ v.data ++ post) ∧
    (sendUseropSponsoredRun w7).1 =
      [SendOpEvent.getAccount, SendOpEvent.sendTransaction w7.accountAddress,
       SendOpEvent.pollReceipt] := by
  refine ⟨?_, ?_, ?_, ?_, ?_, ?_, ?_, ?_⟩
  · intro h
    have hlen : 0 < (missingVars w1.env otpRequiredEnvVars).length := List.length_pos.mpr h
    simp [otpFlowRun, hlen]
  · intro h
    have hlen : 0 < (missingVars w2.env pgFlowRequiredEnvVars).length := List.length_pos.mpr h
    simp [pgFlowRun, hlen]
  · intro h
    have hlen : 0 < (missingVars w3.env agRequiredEnvVars).length := List.length_pos.mpr h
    simp [addGuardianRun, hlen]
  · intro h
    have hlen : 0 < (missingVars w4.env enableRequiredEnvVars).length := List.length_pos.mpr h
    simp [enableRun, hlen]
  · intro h
    have hlen : 0 < (missingVars w5.env alertsRequiredEnvVars).length := List.length_pos.mpr h
    simp [alertsRun, hlen]
  · intro h
    have hlen : 0 < (missingVars w6.env cancelRequiredEnvVars).length := List.length_pos.mpr h
    simp [cancelRun, hlen]
  · intro v hv
    rcases joinComma_mem_sub hv with ⟨pre, post, hp⟩
    refine ⟨("Missing required env vars: " : String).data ++ pre, post, ?_⟩
    rw [strData_append, hp]
    simp [List.append_assoc]
  · cases hr : w7.receiptSuccess with
    | true => simp [sendUseropSponsoredRun, hr]
    | false => simp [sendUseropSponsoredRun, hr]

/-- Concrete input for the C8 counterexample: the send-userop-sponsored
script run with an empty environment (every variable its documentation
calls required is unset). -/
def c8SendOpWorld : SendOpWorld :=
  { env := []
    accountAddress := "0xAcc"
    receiptSuccess := true
    receiptTxHash := "0xhash" }

/-- C8 counterexample to the claim as stated: with `CHAIN_ID` (and every
other required variable) unset, the send-userop-sponsored script throws no
configuration error at all and still reaches its remote calls. -/
theorem c8_counterexample :
    isFalsyEnv c8SendOpWorld.env "CHAIN_ID" = true ∧
    (sendOpConfig c8SendOpWorld.env).chainId = none ∧
    (sendUseropSponsoredRun c8SendOpWorld).1 =
      [SendOpEvent.getAccount, SendOpEvent.sendTransaction "0xAcc",
       SendOpEvent.pollReceipt] ∧
    (sendUseropSponsoredRun c8SendOpWorld).2 = SendOpOutcome.completed := by
  exact ⟨rfl, rfl, rfl, rfl⟩

/-- Concrete inputs for the C8 witness: each recovery script run with an
empty environment. -/
def c8OtpWorld : OtpWorld :=
  { env := [], auths := [], submitRes := fun _ => ⟨false, none, none⟩, finalizeResult := false }

/-- Concrete C8 witness input for the personal-guardian flow. -/
def c8PgWorld : PgFlowWorld := { env := [], executedStatus := none, finalizeResult := false }

/-- Concrete C8 witness input for the add-personal-guardian script. -/
def c8AgWorld : AddGuardianWorld :=
  { env := [], accountAddress := "0xS", guardian1Address := "0xG1",
    guardian2Address := "0xG2", moduleAlreadyEnabled := false, receiptSuccess := true }

/-- Concrete C8 witness input for the enable-email-sms script. -/
def c8EnableWorld : EnableWorld :=
  { env := [], accountAddress := "0xS", moduleAlreadyEnabled := false,
    enableReceiptSuccess := true, choiceInput := "1", emailGuardianAddress := "0xG",
    smsGuardianAddress := "", addGuardianReceiptSuccess := true }

/-- Concrete C8 witness input for the setup-alerts script. -/
def c8AlertsWorld : AlertsWorld :=
  { env := [], choiceInput := "1", emailActivateOk := true, smsActivateOk := true }

/-- Concrete C8 witness input for the cancel-recovery script. -/
def c8CancelWorld : CancelWorld :=
  { env := [], recoveryRequest := ⟨0, [], 0⟩, derivedAddress := "0x",
    receiptSuccess := true, receiptTxHash := "h", afterCancelExecuteAfter := 0, nowMs := 0 }

/-- C8 witness: with an empty environment every recovery-script main throws
the configuration error listing all of its required variables, with an
empty trace (no remote call). -/
theorem c8_config_errors_witness :
    otpFlowRun c8OtpWorld = ([], OtpOutcome.threw
      "Missing required env vars: CHAIN_ID, RECOVERY_SERVICE_URL, NODE_URL") ∧
    pgFlowRun c8PgWorld = ([], PgOutcome.threw
      "Missing required env vars: CHAIN_ID, NODE_URL, RECOVERY_SERVICE_URL, GUARDIAN_1_PRIVATE_KEY, GUARDIAN_2_PRIVATE_KEY") ∧
    addGuardianRun c8AgWorld = ([], AgOutcome.threw
      "Missing required env vars: CHAIN_ID, NODE_URL, BUNDLER_URL, PAYMASTER_URL, ENTRY_POINT_ADDRESS") ∧
    enableRun c8EnableWorld = ([], EnableOutcome.threw
      "Missing required: CHAIN_ID, RECOVERY_SERVICE_URL, BUNDLER_URL, NODE_URL, PAYMASTER_URL, ENTRY_POINT_ADDRESS") ∧
    alertsRun c8AlertsWorld = ([], AlertsOutcome.threw
      "Missing required env vars: CHAIN_ID, RECOVERY_SERVICE_URL, SEED_PHRASE") ∧
    cancelRun c8CancelWorld = ([], CancelOutcome.threw
      "Missing required env vars: SEED_PHRASE, SAFE_ACCOUNT_ADDRESS, CHAIN_ID, NODE_URL, BUNDLER_URL, PAYMASTER_URL, ENTRY_POINT_ADDRESS") := by
  have h := c8_config_errors c8OtpWorld c8PgWorld c8AgWorld c8EnableWorld c8AlertsWorld
    c8CancelWorld c8SendOpWorld
  refine ⟨?_, ?_, ?_, ?_, ?_, ?_⟩
  · rw [h.1 (by decide)]; decide
  · rw [h.2.1 (by decide)]; decide
  · rw [h.2.2.1 (by decide)]; decide
  · rw [h.2.2.2.1 (by decide)]; decide
  · rw [h.2.2.2.2.1 (by decide)]; decide
  · rw [h.2.2.2.2.2.1 (by decide)]; decide

/-! ## Claim C9 -/

/-- The channel registration stage emits no UserOperation submission. -/
theorem enableChannelEvents_no_send (w : EnableWorld) (txs : List MetaTx) :
    EnableEvent.sendTransaction txs ∉ enableChannelEvents w := by
  unfold enableChannelEvents
  cases h1 : (selectChannels w.choiceInput).enableEmail <;>
    cases h2 : (selectChannels w.choiceInput).enableSms <;> simp [h1, h2]

/-- Events already in the trace survive the channel/guardian stage. -/
theorem enableAfterModule_mono (w : EnableWorld) (evs : List EnableEvent) (e : EnableEvent)
    (h : e ∈ evs) : e ∈ (enableAfterModule w evs).1 := by
  unfold enableAfterModule
  by_cases h1 : (selectChannels w.choiceInput).invalid = true
  · simp [h1, h]
  · by_cases h2 : enableGuardianAddress w = ""
    · simp [h1, h2, h]
    · by_cases h3 : w.addGuardianReceiptSuccess = false
      · simp [h1, h2, h3, h]
      · simp [h1, h2, h3, h]

/-- If no submission in the incoming trace carries an enable-module
meta-transaction, the same holds for the whole channel/guardian stage: the
only submission it adds is the add-guardian one. -/
theorem enableAfterModule_sends (w : EnableWorld) (evs : List EnableEvent)
    (hevs : ∀ txs, EnableEvent.sendTransaction txs ∈ evs →
      ∀ a, MetaTx.enableModule a ∉ txs) :
    ∀ txs, EnableEvent.sendTransaction txs ∈ (enableAfterModule w evs).1 →
      ∀ a, MetaTx.enableModule a ∉ txs := by
  intro txs hmem a
  unfold enableAfterModule at hmem
  by_cases h1 : (selectChannels w.choiceInput).invalid = true
  · rw [if_pos h1] at hmem
    exact hevs txs hmem a
  · rw [if_neg h1] at hmem
    by_cases h2 : enableGuardianAddress w = ""
    · rw [if_pos h2] at hmem
      rcases List.mem_append.mp hmem with hm | hm
      · exact hevs txs hm a
      · exact absurd hm (enableChannelEvents_no_send w txs)
    · rw [if_neg h2] at hmem
      by_cases h3 : w.addGuardianReceiptSuccess = false
      · rw [if_pos h3] at hmem
        rcases List.mem_append.mp hmem with hm | hm
        · rcases List.mem_append.mp hm with hm | hm
          · exact hevs txs hm a
          · exact absurd hm (enableChannelEvents_no_send w txs)
        · have : txs = [MetaTx.addGuardianWithThreshold (enableGuardianAddress w) 1] := by
            simpa using hm
          subst this
          simp
      · rw [if_neg h3] at hmem
        rcases List.mem_append.mp hmem with hm | hm
        · rcases List.mem_append.mp hm with hm | hm
          · rcases List.mem_append.mp hm with hm | hm
            · exact hevs txs hm a
            · exact absurd hm (enableChannelEvents_no_send w txs)
          · have : txs = [MetaTx.addGuardianWithThreshold (enableGuardianAddress w) 1] := by
              simpa using hm
            subst this
            simp
        · simp at hm

/-- C9: in both setup scripts the enable-module meta-transaction is
submitted exactly when `isModuleEnabled` returned false.  In the
add-personal-guardian script the single batch contains the enable-module
transaction iff the module was not already enabled, while both
guardian-addition transactions are always in the batch, and the batch is
always submitted.  In the enable-email-sms script the enable-module
UserOperation is sent when the module was not enabled; on a re-run with the
module already enabled no submission ever carries an enable-module
transaction, while the add-guardian transaction is still submitted. -/
theorem c9_enable_module_iff (w : AddGuardianWorld) (w2 : EnableWorld) :
    ((MetaTx.enableModule w.accountAddress ∈ addGuardianTxs w) ↔
      w.moduleAlreadyEnabled = false) ∧
    MetaTx.addGuardianWithThreshold w.guardian1Address 1 ∈ addGuardianTxs w ∧
    MetaTx.addGuardianWithThreshold w.guardian2Address 2 ∈ addGuardianTxs w ∧
    (missingVars w.env agRequiredEnvVars = [] →
      AgEvent.sendTransaction (addGuardianTxs w) ∈ (addGuardianRun w).1) ∧
    (missingVars w2.env enableRequiredEnvVars = [] →
      (w2.moduleAlreadyEnabled = false →
        EnableEvent.sendTransaction [MetaTx.enableModule w2.accountAddress]
          ∈ (enableRun w2).1) ∧
      (w2.moduleAlreadyEnabled = true →
        (∀ txs, EnableEvent.sendTransaction txs ∈ (enableRun w2).1 →
          ∀ a, MetaTx.enableModule a ∉ txs) ∧
        ((selectChannels w2.choiceInput).invalid = false →
          enableGuardianAddress w2 ≠ "" →
          EnableEvent.sendTransaction
            [MetaTx.addGuardianWithThreshold (enableGuardianAddress w2) 1]
            ∈ (enableRun w2).1))) := by
  refine ⟨?_, ?_, ?_, ?_, ?_⟩
  · cases hm : w.moduleAlreadyEnabled <;> simp [addGuardianTxs, hm]
  · cases hm : w.moduleAlreadyEnabled <;> simp [addGuardianTxs, hm]
  · cases hm : w.moduleAlreadyEnabled <;> simp [addGuardianTxs, hm]
  · intro henv
    cases hr : w.receiptSuccess with
    | true => simp [addGuardianRun, henv, hr]
    | false => simp [addGuardianRun, henv, hr]
  · intro henv
    constructor
    · intro hmod
      have hrun : (enableRun w2).1 = (if w2.enableReceiptSuccess = false then
          [EnableEvent.isModuleEnabledQuery,
           EnableEvent.sendTransaction [MetaTx.enableModule w2.accountAddress],
           EnableEvent.pollReceipt]
        else (enableAfterModule w2 [EnableEvent.isModuleEnabledQuery,
           EnableEvent.sendTransaction [MetaTx.enableModule w2.accountAddress],
           EnableEvent.pollReceipt]).1) := by
        cases he : w2.enableReceiptSuccess with
        | true => simp [enableRun, henv, hmod, he]
        | false => simp [enableRun, henv, hmod, he]
      rw [hrun]
      cases he : w2.enableReceiptSuccess with
      | true =>
        rw [if_neg (by simp)]
        exact enableAfterModule_mono w2 _ _ (by simp)
      | false =>
        rw [if_pos rfl]
        simp
    · intro hmod
      have hrun : (enableRun w2).1 =
          (enableAfterModule w2 [EnableEvent.isModuleEnabledQuery]).1 := by
        simp [enableRun, henv, hmod]
      constructor
      · rw [hrun]
        exact enableAfterModule_sends w2 _ (by intro txs hm a; simp at hm)
      · intro hsel hga
        rw [hrun]
        unfold enableAfterModule
        rw [if_neg (by simp [hsel])]
        rw [if_neg hga]
        by_cases h3 : w2.addGuardianReceiptSuccess = false
        · rw [if_pos h3]; simp
        · rw [if_neg h3]; simp

/-- A complete environment for the enable-email-sms script. -/
def enableEnvOk : List (String × String) :=
  [("CHAIN_ID", "11155111"), ("RECOVERY_SERVICE_URL", "r"), ("BUNDLER_URL", "b"),
   ("NODE_URL", "n"), ("PAYMASTER_URL", "p"), ("ENTRY_POINT_ADDRESS", "e")]

/-- Concrete input for the C9 witness: the add-personal-guardian script
run with the module already enabled. -/
def c9AgWorld : AddGuardianWorld :=
  { env := agEnvOk
    accountAddress := "0xSafe"
    guardian1Address := "0xG1"
    guardian2Address := "0xG2"
    moduleAlreadyEnabled := true
    receiptSuccess := true }

/-- Concrete input for the C9 witness: a re-run of the enable-email-sms
script with the module already enabled and the email channel chosen. -/
def c9EnableWorld : EnableWorld :=
  { env := enableEnvOk
    accountAddress := "0xSafe"
    moduleAlreadyEnabled := true
    enableReceiptSuccess := true
    choiceInput := "1"
    emailGuardianAddress := "0xCandideGuardian"
    smsGuardianAddress := ""
    addGuardianReceiptSuccess := true }

/-- C9 witness at concrete runs of both setup scripts. -/
theorem c9_enable_module_iff_witness :
    MetaTx.enableModule c9AgWorld.accountAddress ∉ addGuardianTxs c9AgWorld ∧
    MetaTx.addGuardianWithThreshold "0xG1" 1 ∈ addGuardianTxs c9AgWorld ∧
    MetaTx.addGuardianWithThreshold "0xG2" 2 ∈ addGuardianTxs c9AgWorld ∧
    AgEvent.sendTransaction (addGuardianTxs c9AgWorld) ∈ (addGuardianRun c9AgWorld).1 ∧
    EnableEvent.sendTransaction
      [MetaTx.addGuardianWithThreshold (enableGuardianAddress c9EnableWorld) 1]
      ∈ (enableRun c9EnableWorld).1 := by
  have h := c9_enable_module_iff c9AgWorld c9EnableWorld
  have h5 := (h.2.2.2.2 (by decide)).2 rfl
  refine ⟨?_, h.2.1, h.2.2.1, h.2.2.2.1 (by decide), h5.2 (by decide) (by decide)⟩
  intro hmem
  have := h.1.mp hmem
  exact absurd this (by decide)

/-! ## Claim C10 -/

/-- The email registration event occurs in the channel registration stage
exactly when the email channel was selected. -/
theorem enableChannelEvents_email_mem (w : EnableWorld) :
    EnableEvent.createEmailRegistration ∈ enableChannelEvents w ↔
      (selectChannels w.choiceInput).enableEmail = true := by
  unfold enableChannelEvents
  cases h1 : (selectChannels w.choiceInput).enableEmail <;>
    cases h2 : (selectChannels w.choiceInput).enableSms <;> simp [h1, h2]

/-- Membership of the email registration event in the channel/guardian
stage, for any incoming trace that does not already contain it. -/
theorem enableAfterModule_email_mem (w : EnableWorld) (evs : List EnableEvent)
    (hevs : EnableEvent.createEmailRegistration ∉ evs) :
    (EnableEvent.createEmailRegistration ∈ (enableAfterModule w evs).1 ↔
      (selectChannels w.choiceInput).invalid = false ∧
        (selectChannels w.choiceInput).enableEmail = true) := by
  unfold enableAfterModule
  cases hi : (selectChannels w.choiceInput).invalid with
  | true => simp [hi, hevs]
  | false =>
    by_cases h2 : enableGuardianAddress w = ""
    · simp [hi, h2, hevs, enableChannelEvents_email_mem]
    · by_cases h3 : w.addGuardianReceiptSuccess = false
      · simp [hi, h2, h3, hevs, enableChannelEvents_email_mem]
      · simp [hi, h2, h3, hevs, enableChannelEvents_email_mem]

/-- C10: in the shared channel-selection prompt, the email path runs iff
the input parses (via `parseInt`) to 1 or 3 and the SMS path iff it parses
to 2 or 3; the invalid-choice guard fires exactly on numeric parses outside
1..3, while a non-numeric input parses to NaN, passes the guard, and the
script continues with neither channel enabled. -/
theorem c10_channel_choice (s : String) (wa : AlertsWorld) (we : EnableWorld) :
    ((selectChannels s).invalid = true ↔
      ∃ k : Int, parseIntJS s = some k ∧ (k < 1 ∨ 3 < k)) ∧
    ((selectChannels s).invalid = false ∧ (selectChannels s).enableEmail = true ↔
      (parseIntJS s = some 1 ∨ parseIntJS s = some 3)) ∧
    ((selectChannels s).invalid = false ∧ (selectChannels s).enableSms = true ↔
      (parseIntJS s = some 2 ∨ parseIntJS s = some 3)) ∧
    (parseIntJS s = none →
      (selectChannels s).invalid = false ∧ (selectChannels s).enableEmail = false ∧
        (selectChannels s).enableSms = false) ∧
    (missingVars wa.env alertsRequiredEnvVars = [] →
      (AlertsEvent.createEmailSubscription ∈ (alertsRun wa).1 ↔
        (selectChannels wa.choiceInput).invalid = false ∧
          (selectChannels wa.choiceInput).enableEmail = true) ∧
      (AlertsEvent.createSmsSubscription ∈ (alertsRun wa).1 ↔
        (selectChannels wa.choiceInput).invalid = false ∧
          (selectChannels wa.choiceInput).enableSms = true) ∧
      ((selectChannels wa.choiceInput).invalid = false →
        (alertsRun wa).2 = AlertsOutcome.done)) ∧
    (missingVars we.env enableRequiredEnvVars = [] → we.moduleAlreadyEnabled = true →
      (EnableEvent.createEmailRegistration ∈ (enableRun we).1 ↔
        (selectChannels we.choiceInput).invalid = false ∧
          (selectChannels we.choiceInput).enableEmail = true)) := by
  refine ⟨?_, ?_, ?_, ?_, ?_, ?_⟩
  · rcases hc : parseIntJS s with _ | k
    · simp [selectChannels, hc, jsNumLt, jsNumGt]
    · rcases lt_or_le k 1 with hk1 | hk1
      · have hcond : (jsNumLt (parseIntJS s) 1 || jsNumGt (parseIntJS s) 3) = true := by
          rw [hc]; simp [jsNumLt, hk1]
        have hsel : (selectChannels s).invalid = true := by
          simp [selectChannels, hcond]
        rw [hsel]
        simp [hc]
        omega
      · rcases le_or_lt k 3 with hk3 | hk3
        · have hcond : (jsNumLt (parseIntJS s) 1 || jsNumGt (parseIntJS s) 3) = false := by
            rw [hc]
            simp [jsNumLt, jsNumGt]
            omega
          have hsel : (selectChannels s).invalid = false := by
            simp [selectChannels, hcond]
          rw [hsel]
          simp [hc]
          omega
        · have hcond : (jsNumLt (parseIntJS s) 1 || jsNumGt (parseIntJS s) 3) = true := by
            rw [hc]; simp [jsNumGt, hk3]
          have hsel : (selectChannels s).invalid = true := by
            simp [selectChannels, hcond]
          rw [hsel]
          simp [hc]
          omega
  · rcases hc : parseIntJS s with _ | k
    · simp [selectChannels, hc, jsNumLt, jsNumGt]
    · rcases lt_or_le k 1 with hk1 | hk1
      · have hcond : (jsNumLt (parseIntJS s) 1 || jsNumGt (parseIntJS s) 3) = true := by
          rw [hc]; simp [jsNumLt, hk1]
        have hsel : (selectChannels s).invalid = true := by
          simp [selectChannels, hcond]
        rw [hsel]
        simp [hc]
        omega
      · rcases le_or_lt k 3 with hk3 | hk3
        · have hcond : (jsNumLt (parseIntJS s) 1 || jsNumGt (parseIntJS s) 3) = false := by
            rw [hc]
            simp [jsNumLt, jsNumGt]
            omega
          have hsel : selectChannels s =
              { invalid := false
                enableEmail := parseIntJS s == some 1 || parseIntJS s == some 3
                enableSms := parseIntJS s == some 2 || parseIntJS s == some 3 } := by
            simp [selectChannels, hcond]
          rw [hsel, hc]
          simp
        · have hcond : (jsNumLt (parseIntJS s) 1 || jsNumGt (parseIntJS s) 3) = true := by
            rw [hc]; simp [jsNumGt, hk3]
          have hsel : (selectChannels s).invalid = true := by
            simp [selectChannels, hcond]
          rw [hsel]
          simp [hc]
          omega
  · rcases hc : parseIntJS s with _ | k
    · simp [selectChannels, hc, jsNumLt, jsNumGt]
    · rcases lt_or_le k 1 with hk1 | hk1
      · have hcond : (jsNumLt (parseIntJS s) 1 || jsNumGt (parseIntJS s) 3) = true := by
          rw [hc]; simp [jsNumLt, hk1]
        have hsel : (selectChannels s).invalid = true := by
          simp [selectChannels, hcond]
        rw [hsel]
        simp [hc]
        omega
      · rcases le_or_lt k 3 with hk3 | hk3
        · have hcond : (jsNumLt (parseIntJS s) 1 || jsNumGt (parseIntJS s) 3) = false := by
            rw [hc]
            simp [jsNumLt, jsNumGt]
            omega
          have hsel : selectChannels s =
              { invalid := false
                enableEmail := parseIntJS s == some 1 || parseIntJS s == some 3
                enableSms := parseIntJS s == some 2 || parseIntJS s == some 3 } := by
            simp [selectChannels, hcond]
          rw [hsel, hc]
          simp
        · have hcond : (jsNumLt (parseIntJS s) 1 || jsNumGt (parseIntJS s) 3) = true := by
            rw [hc]; simp [jsNumGt, hk3]
          have hsel : (selectChannels s).invalid = true := by
            simp [selectChannels, hcond]
          rw [hsel]
          simp [hc]
          omega
  · intro hc
    simp [selectChannels, hc, jsNumLt, jsNumGt]
  · intro henv
    refine ⟨?_, ?_, ?_⟩
    · cases hi : (selectChannels wa.choiceInput).invalid with
      | true => simp [alertsRun, henv, hi]
      | false =>
        cases he : (selectChannels wa.choiceInput).enableEmail with
        | true =>
          cases hs2 : (selectChannels wa.choiceInput).enableSms with
          | true => simp [alertsRun, henv, hi, he, hs2]
          | false => simp [alertsRun, henv, hi, he, hs2]
        | false =>
          cases hs2 : (selectChannels wa.choiceInput).enableSms with
          | true => simp [alertsRun, henv, hi, he, hs2]
          | false => simp [alertsRun, henv, hi, he, hs2]
    · cases hi : (selectChannels wa.choiceInput).invalid with
      | true => simp [alertsRun, henv, hi]
      | false =>
        cases he : (selectChannels wa.choiceInput).enableEmail with
        | true =>
          cases hs2 : (selectChannels wa.choiceInput).enableSms with
          | true => simp [alertsRun, henv, hi, he, hs2]
          | false => simp [alertsRun, henv, hi, he, hs2]
        | false =>
          cases hs2 : (selectChannels wa.choiceInput).enableSms with
          | true => simp [alertsRun, henv, hi, he, hs2]
          | false => simp [alertsRun, henv, hi, he, hs2]
    · intro hi
      cases he : (selectChannels wa.choiceInput).enableEmail with
      | true =>
        cases hs2 : (selectChannels wa.choiceInput).enableSms with
        | true => simp [alertsRun, henv, hi, he, hs2]
        | false => simp [alertsRun, henv, hi, he, hs2]
      | false =>
        cases hs2 : (selectChannels wa.choiceInput).enableSms with
        | true => simp [alertsRun, henv, hi, he, hs2]
        | false => simp [alertsRun, henv, hi, he, hs2]
  · intro henv hmod
    have hrun : (enableRun we).1 =
        (enableAfterModule we [EnableEvent.isModuleEnabledQuery]).1 := by
      simp [enableRun, henv, hmod]
    rw [hrun]
    exact enableAfterModule_email_mem we _ (by simp)

/-- A complete environment for the setup-alerts script. -/
def alertsEnvOk : List (String × String) :=
  [("CHAIN_ID", "11155111"), ("RECOVERY_SERVICE_URL", "r"), ("SEED_PHRASE", "s")]

/-- Concrete input for the C10 witness: the alerts prompt receives the
non-numeric input `oops`. -/
def c10AlertsWorld : AlertsWorld :=
  { env := alertsEnvOk, choiceInput := "oops", emailActivateOk := true, smsActivateOk := true }

/-- Concrete input for the C10 witness: the enable-email-sms prompt
receives `3` (both channels). -/
def c10EnableWorld : EnableWorld :=
  { env := enableEnvOk
    accountAddress := "0xS"
    moduleAlreadyEnabled := true
    enableReceiptSuccess := true
    choiceInput := "3"
    emailGuardianAddress := "0xG"
    smsGuardianAddress := ""
    addGuardianReceiptSuccess := true }

/-- C10 witness: the non-numeric input passes the guard with neither
channel enabled and the script continues, while the input `3` runs the
email path of the setup script. -/
theorem c10_channel_choice_witness :
    ((selectChannels "oops").invalid = false ∧ (selectChannels "oops").enableEmail = false ∧
      (selectChannels "oops").enableSms = false) ∧
    (alertsRun c10AlertsWorld).2 = AlertsOutcome.done ∧
    (EnableEvent.createEmailRegistration ∈ (enableRun c10EnableWorld).1 ↔
      (selectChannels "3").invalid = false ∧ (selectChannels "3").enableEmail = true) := by
  have h := c10_channel_choice "oops" c10AlertsWorld c10EnableWorld
  refine ⟨h.2.2.2.1 (by decide), ?_, ?_⟩
  · exact (h.2.2.2.2.1 (by decide)).2.2 (by decide)
  · exact h.2.2.2.2.2 (by decide) rfl
